import Mathlib

/-!
Verification development for the Telegram help-center bot (`help.py`).

The Python program keeps its whole mutable state in
`app.help_state` (a JSON-backed dict with keys `users`, `pending`,
`vip_link`, `dark_link`, `counters`) plus a transient
`app.admin_sessions` dict.  We embed that state shallowly:

* Python dicts become association lists with overwrite-on-insert
  semantics (`alookup` / `ainsert` / `apop` / `asetdefault`).
* User ids are `Int` (the source stores `str(uid)` keys and parses
  them back with `int(...)`; that round trip is the identity for the
  keys the program itself writes, so we keep the ids as integers).
* Every handler becomes a pure function from the world (help state +
  admin sessions) and the inbound event's data to the new world plus
  a trace of observable effects (`OutEvent`): `save_state` calls,
  `bot.send_message`-style deliveries, `reply_text` responses,
  callback answers and message edits.
* Delivery failures that the source catches per recipient are modelled
  by a `deliver : Int → Bool` oracle; a failed send produces no
  `sendMessage` event, exactly like the caught exception in the source.
* ASCII apostrophes occurring inside source message texts are written
  with the `\x27` escape.
-/

/-- Lookup in an association list (Python `d.get(k)` / `d[k]`). -/
def alookup {α β : Type} [DecidableEq α] : List (α × β) → α → Option β
  | [], _ => none
  | p :: ps, k => if p.1 = k then some p.2 else alookup ps k

/-- Python `d[k] = v`: overwrite the binding if the key is present,
otherwise append a new binding. -/
def ainsert {α β : Type} [DecidableEq α] (m : List (α × β)) (k : α) (v : β) : List (α × β) :=
  if (alookup m k).isSome then m.map (fun p => if p.1 = k then (k, v) else p) else m ++ [(k, v)]

/-- Python `d.pop(k, None)`: remove the binding for `k` (if any). -/
def apop {α β : Type} [DecidableEq α] (m : List (α × β)) (k : α) : List (α × β) :=
  m.filter (fun p => decide (p.1 ≠ k))

/-- Python `d.setdefault(k, v)`: insert `v` under `k` only when `k` is absent. -/
def asetdefault {α β : Type} [DecidableEq α] (m : List (α × β)) (k : α) (v : β) : List (α × β) :=
  if (alookup m k).isSome then m else m ++ [(k, v)]

/-- `users` record (`help.py` keeps these as free-form dicts; an absent
key is `none`).  `start` writes `first_name`/`issues`; the button
handlers write `last_action`/`last_service`. -/
structure UserRec where
  first_name : Option String := none
  issues : Option (List String) := none
  last_action : Option String := none
  last_service : Option String := none
deriving DecidableEq, Repr, Inhabited

/-- `pending` registry item.  Payment items carry `service`/`caption`,
tech items carry `caption`+`has_media` (media) or `text` (plain text);
absent dict keys are `none`. -/
structure PendingItem where
  ptype : String
  user_id : Int
  service : Option String := none
  caption : Option String := none
  text : Option String := none
  has_media : Bool := false
deriving DecidableEq, Repr, Inhabited

/-- The `counters` sub-dict of the persisted state. -/
structure Counters where
  payment_submitted : Nat := 0
  tech_submitted : Nat := 0
  links_sent : Nat := 0
deriving DecidableEq, Repr, Inhabited

/-- The persisted state (`app.help_state`, the JSON document). -/
structure HelpState where
  users : List (Int × UserRec) := []
  pending : List (String × PendingItem) := []
  vip_link : String := ""
  dark_link : String := ""
  counters : Counters := {}
deriving DecidableEq, Repr, Inhabited

/-- One entry of the transient `app.admin_sessions` dict. -/
structure AdminSession where
  action : String
  target_user : Option Int := none
  pending_id : Option String := none
  started_at : Option Nat := none
deriving DecidableEq, Repr, Inhabited

/-- The whole in-memory world: persisted state plus admin sessions. -/
structure World where
  help_state : HelpState := {}
  admin_sessions : List (Int × AdminSession) := []
deriving DecidableEq, Repr, Inhabited

/-- Observable effects of one handler invocation, in program order.
`sendMessage` stands for any of `send_message`/`send_photo`/
`send_document` to an explicit chat id (`buttons` lists the
`callback_data` of the attached inline keyboard, row-flattened);
`replyText` is `update.message.reply_text`; `answerCb` is
`query.answer(text)`; `editMessage` is `query.edit_message_text`. -/
inductive OutEvent where
  | saveState (s : HelpState)
  | sendMessage (chat : Int) (text : String) (buttons : List String)
  | replyText (text : String)
  | answerCb (text : String)
  | editMessage (text : String)
deriving DecidableEq, Repr

/-- Boolean equality of char lists (Python string `==`). -/
def eqL : List Char → List Char → Bool
  | [], [] => true
  | a :: as, b :: bs => a == b && eqL as bs
  | _, _ => false

/-- Boolean `startswith` on char lists. -/
def isPre : List Char → List Char → Bool
  | [], _ => true
  | _ :: _, [] => false
  | p :: ps, c :: cs => p == c && isPre ps cs

/-- Split at the first occurrence of `d` (Python `s.split(d, 1)` when
`d in s`); `none` when `d` does not occur. -/
def splitFirst (d : Char) : List Char → Option (List Char × List Char)
  | [] => none
  | c :: cs =>
    if c = d then some ([], cs)
    else
      match splitFirst d cs with
      | some (a, b) => some (c :: a, b)
      | none => none

/-- Python `s.split(sep)` for a one-character separator: splits at every
occurrence, keeping empty pieces. -/
def splitEvery (d : Char) : List Char → List (List Char)
  | [] => [[]]
  | c :: cs =>
    if c = d then [] :: splitEvery d cs
    else
      match splitEvery d cs with
      | [] => [[c]]
      | w :: ws => (c :: w) :: ws

/-- Digits of a decimal literal to a `Nat`. -/
def digitsToNat (l : List Char) : Nat :=
  l.foldl (fun a c => a * 10 + (c.toNat - '0'.toNat)) 0

/-- Python `int(s)` for the strings this program feeds it: an optional
sign followed by decimal digits; anything else raises, which the call
sites turn into `None` / an error reply. -/
def pyInt (s : String) : Option Int :=
  match s.data with
  | '-' :: ds => if ds ≠ [] ∧ ds.all Char.isDigit then some (-(digitsToNat ds : Int)) else none
  | '+' :: ds => if ds ≠ [] ∧ ds.all Char.isDigit then some ((digitsToNat ds : Int)) else none
  | ds => if ds ≠ [] ∧ ds.all Char.isDigit then some ((digitsToNat ds : Int)) else none

/-- Python `str.split(maxsplit=budget)` worker on chars: skip leading
whitespace; take whole words until the budget is exhausted, then keep
the remainder verbatim.  `fuel` only bounds recursion depth. -/
def pySplitGo : Nat → Nat → List Char → List (List Char)
  | 0, _, _ => []
  | fuel + 1, budget, cs =>
    let cs1 := cs.dropWhile Char.isWhitespace
    match cs1 with
    | [] => []
    | _ :: _ =>
      match budget with
      | 0 => [cs1]
      | b + 1 =>
        let w := cs1.takeWhile (fun c => !c.isWhitespace)
        let r := cs1.dropWhile (fun c => !c.isWhitespace)
        w :: pySplitGo fuel b r

/-- Python `s.split(maxsplit=n)`. -/
def pySplitMax (s : String) (n : Nat) : List String :=
  (pySplitGo (s.data.length + 1) n s.data).map (fun l => String.mk l)

/-- Python `s.split()` (no maxsplit). -/
def pySplitWs (s : String) : List String :=
  (pySplitGo (s.data.length + 1) (s.data.length + 1) s.data).map (fun l => String.mk l)

/-- Python `str(opt)` as used in f-strings: `None` for an absent value. -/
def pyShowOpt : Option String → String
  | some s => s
  | none => "None"

/-- Python `s.strip()`: drop leading and trailing whitespace. -/
def pyStrip (s : String) : String :=
  String.mk (((s.data.dropWhile Char.isWhitespace).reverse.dropWhile Char.isWhitespace).reverse)

/-- Python `s.lower()` for the ASCII command strings this program
compares. -/
def pyLower (s : String) : String :=
  String.mk (s.data.map Char.toLower)

/-- Python `s.startswith(p)`. -/
def pyStartsWith (s p : String) : Bool :=
  isPre p.data s.data

/-- The callback token built for payment tickets in
`photo_or_doc_handler` (`f"admin_pay_{pending_id}_{action}"`). -/
def encode_admin_pay (pending_id action : String) : String :=
  "admin_pay_" ++ pending_id ++ "_" ++ action

/-- The callback token built for tech tickets in `photo_or_doc_handler`
and `text_handler` (`f"admin_tech_{pending_id}_{action}"`). -/
def encode_admin_tech (pending_id action : String) : String :=
  "admin_tech_" ++ pending_id ++ "_" ++ action

/-- Decoded form of a callback token, one constructor per branch of
`handle_buttons`. -/
inductive BtnDispatch where
  | issuePayment
  | paymentService (which : String)
  | issueTech
  | issueOther
  | adminPanel (act : String)
  | adminPayInvalid
  | adminPay (pid act : String)
  | adminTechInvalid
  | adminTech (pid act : String)
  | unmatched
deriving DecidableEq, Repr

/-- The token-decoding skeleton of `handle_buttons` (lines 170-259):
the exact sequence of `==`/`startswith` tests, with
`data.partition(p)[2]` under a `startswith(p)` guard embedded as
`drop (length p)` (the first occurrence of `p` is then at index 0),
and `payload.split("_", 1)` embedded as `splitFirst '_'`. -/
def dispatchCore (d : List Char) : BtnDispatch :=
  if eqL d "issue_payment".data then .issuePayment
  else if isPre "payment_".data d then .paymentService (String.mk (d.drop 8))
  else if eqL d "issue_tech".data then .issueTech
  else if eqL d "issue_other".data then .issueOther
  else if isPre "adminpanel_".data d then .adminPanel (String.mk (d.drop 11))
  else if isPre "admin_pay_".data d then
    match splitFirst '_' (d.drop 10) with
    | some (pid, act) => .adminPay (String.mk pid) (String.mk act)
    | none => .adminPayInvalid
  else if isPre "admin_tech_".data d then
    match splitFirst '_' (d.drop 11) with
    | some (pid, act) => .adminTech (String.mk pid) (String.mk act)
    | none => .adminTechInvalid
  else .unmatched

/-- `dispatchCore` on strings. -/
def dispatch (data : String) : BtnDispatch := dispatchCore data.data

/-- Which registered callback handler receives a button press: `main`
registers `handle_quick_cancel` with pattern `^admin_quick_cancel_`
before the generic `handle_buttons`. -/
inductive Routed where
  | quickCancel
  | buttons (b : BtnDispatch)
deriving DecidableEq, Repr

/-- Handler routing for callback queries, per the registration order in
`main`. -/
def route (data : String) : Routed :=
  if isPre "admin_quick_cancel_".data data.data then .quickCancel
  else .buttons (dispatch data)

/-- `Insights:` text shared by the `/insights` command and the admin
panel button (the state always carries both link keys, so the
`.get(..., '(not set)')` default never fires). -/
def insightsText (s : HelpState) : String :=
  "Insights:\nPayments submitted: " ++ toString s.counters.payment_submitted ++
  "\nTech submitted: " ++ toString s.counters.tech_submitted ++
  "\nLinks sent: " ++ toString s.counters.links_sent ++
  "\nVIP link: " ++ s.vip_link ++ "\nDARK link: " ++ s.dark_link

/-- Links text shared by `/get_links` and the panel button. -/
def linksText (s : HelpState) : String :=
  "VIP link: " ++ s.vip_link ++ "\nDARK link: " ++ s.dark_link

/-- `callback_data` of the admin panel keyboard (`send_admin_panel`). -/
def adminPanelButtons : List String :=
  ["adminpanel_set_vip", "adminpanel_set_dark", "adminpanel_set_both",
   "adminpanel_broadcast", "adminpanel_insights", "adminpanel_get_links"]

/-- `start` (lines 141-157): `setdefault` the user record, save, greet.
`first_name` is the raw `user.first_name or ""`. -/
def start (w : World) (uid : Int) (first_name : String) : World × List OutEvent :=
  let users1 := asetdefault w.help_state.users uid
    { first_name := some first_name, issues := some [] }
  let s1 := { w.help_state with users := users1 }
  ({ w with help_state := s1 },
   [.saveState s1,
    .replyText ("Hi " ++ (if first_name = "" then "there" else first_name) ++
      "! ⚠️ Please choose your issue from the buttons below before sending messages.")])

/-- `handle_admin_payment_action` (lines 262-310).  The source first
rejects non-allow-listed pressers, then looks the ticket up; `decline`
notifies the user, pops the ticket and saves; approvals collect the
non-empty links for the chosen service, bail out with an answer when
none is configured, and otherwise send each link (incrementing
`links_sent` per send), pop the ticket and save. -/
def handle_admin_payment_action (adminIds : List Int) (w : World) (admin_id : Int)
    (pending_id action : String) : World × List OutEvent :=
  if admin_id ∈ adminIds then
    match alookup w.help_state.pending pending_id with
    | none => (w, [.answerCb "Pending item not found"])
    | some pending =>
      if action = "decline" then
        let s1 := { w.help_state with pending := apop w.help_state.pending pending_id }
        ({ w with help_state := s1 },
         [.sendMessage pending.user_id "Your payment submission was reviewed by admin and declined. If you believe this is a mistake, reply here or contact support." [],
          .saveState s1,
          .editMessage "Declined and user notified."])
      else
        let vip_link := w.help_state.vip_link
        let dark_link := w.help_state.dark_link
        let send_msgs : List String :=
          (if action = "vip" ∧ vip_link ≠ "" then [vip_link] else []) ++
          (if action = "dark" ∧ dark_link ≠ "" then [dark_link] else []) ++
          (if action = "both" then
            (if vip_link ≠ "" then [vip_link] else []) ++
            (if dark_link ≠ "" then [dark_link] else [])
          else [])
        if send_msgs = [] then
          (w, [.answerCb "No link configured for the chosen service. Use /set_vip_link or /set_dark_link first."])
        else
          let s1 := { w.help_state with
                      counters := { w.help_state.counters with
                                    links_sent := w.help_state.counters.links_sent + send_msgs.length },
                      pending := apop w.help_state.pending pending_id }
          ({ w with help_state := s1 },
           (send_msgs.map fun m =>
             OutEvent.sendMessage pending.user_id ("Admin approved. Here\x27s your link: " ++ m) []) ++
           [.saveState s1, .editMessage "Approved and links sent to user."])
  else (w, [.answerCb "Unauthorized"])

/-- `handle_admin_tech_action` (lines 313-418): `ignore` notifies the
user (skipped for a falsy user id), pops the ticket and saves; `reply`
only installs a `quick_reply` admin session bound to the ticket and its
user, leaving the registry untouched; other actions answer
`Unknown action`. -/
def handle_admin_tech_action (adminIds : List Int) (w : World) (admin_id : Int)
    (pending_id action : String) (now : Nat) : World × List OutEvent :=
  if admin_id ∈ adminIds then
    match alookup w.help_state.pending pending_id with
    | none =>
      (w, [.answerCb "Pending item not found",
           .editMessage "This pending item was already handled or expired."])
    | some pending =>
      if action = "ignore" then
        let s1 := { w.help_state with pending := apop w.help_state.pending pending_id }
        ({ w with help_state := s1 },
         (if pending.user_id ≠ 0 then
            [OutEvent.sendMessage pending.user_id "Admin marked your issue as invalid/ignored. If you disagree, reply here." []]
          else []) ++
         [.saveState s1, .editMessage "Ignored and user notified."])
      else if action = "reply" then
        let sess : AdminSession :=
          { action := "quick_reply", target_user := some pending.user_id,
            pending_id := some pending_id, started_at := some now }
        ({ w with admin_sessions := ainsert w.admin_sessions admin_id sess },
         [.editMessage "Quick-reply mode: send the reply message here and it will be forwarded to the user.\nTo cancel, press the button below or send /cancel."])
      else (w, [.answerCb "Unknown action"])
  else (w, [.answerCb "Unauthorized"])

/-- `handle_quick_cancel` (lines 458-497).  The handler parses the
admin id out of the callback data (`parts[-1]` after `split("_")`) and
checks THAT id against the allow-list; the identity of the presser
(`query.from_user`) is never consulted, which is why it is a parameter
the body ignores. -/
def handle_quick_cancel (adminIds : List Int) (w : World) (presser : Int)
    (data : String) : World × List OutEvent :=
  let parts := splitEvery '_' data.data
  let admin_id? : Option Int :=
    if parts.length ≥ 4 then pyInt (String.mk (parts.getLastD [])) else none
  match admin_id? with
  | none => (w, [.editMessage "Unauthorized to cancel."])
  | some aid =>
    if aid ∈ adminIds then
      ({ w with admin_sessions := apop w.admin_sessions aid },
       [.editMessage "Quick-reply cancelled."])
    else (w, [.editMessage "Unauthorized to cancel."])

/-- `photo_or_doc_handler` (lines 502-601).  Media submissions: only
accepted when the sender's flow state is one of the `awaiting_*`
values; the new ticket (id `str(int(time.time()*1000))`, here
`toString now`) and the counter bump are saved, the evidence is
fanned out to every admin (per-recipient failures are caught), the flow
state is reset and saved again, and the user gets a confirmation.
`hasPhoto`/`hasDoc` select between `send_photo`/`send_document`/
`send_message` in the source; all three are one `sendMessage` event
here. -/
def photo_or_doc_handler (adminIds : List Int) (w : World) (uid : Int) (full_name : String)
    (caption? : Option String) (hasPhoto hasDoc : Bool) (now : Nat)
    (deliver : Int → Bool) : World × List OutEvent :=
  let user_rec := (alookup w.help_state.users uid).getD {}
  if user_rec.last_action ≠ some "awaiting_payment" ∧ user_rec.last_action ≠ some "awaiting_tech" then
    (w, [.replyText "Please choose your issue from /start and tap the buttons before sending media."])
  else
    let caption := caption?.getD ""
    let pending_id := toString now
    if user_rec.last_action = some "awaiting_payment" then
      let item : PendingItem :=
        { ptype := "payment", user_id := uid, service := user_rec.last_service,
          caption := some caption }
      let s1 := { w.help_state with
                  pending := ainsert w.help_state.pending pending_id item,
                  counters := { w.help_state.counters with
                                payment_submitted := w.help_state.counters.payment_submitted + 1 } }
      let kbs := [encode_admin_pay pending_id "vip", encode_admin_pay pending_id "dark",
                  encode_admin_pay pending_id "both", encode_admin_pay pending_id "decline"]
      let capText := "Payment from " ++ full_name ++ " (id: " ++ toString uid ++ ")\nService: " ++
        pyShowOpt user_rec.last_service ++ "\nCaption: " ++ caption
      let fan := adminIds.filterMap fun aid =>
        if deliver aid then some (OutEvent.sendMessage aid capText kbs) else none
      let s2 := { s1 with users := ainsert s1.users uid { user_rec with last_action := none } }
      ({ w with help_state := s2 },
       OutEvent.saveState s1 :: fan ++
       [.saveState s2,
        .replyText "Thanks — your payment evidence has been sent to admin for review. We\x27ll notify you when it\x27s processed."])
    else
      let item : PendingItem :=
        { ptype := "tech", user_id := uid, caption := some caption, has_media := true }
      let s1 := { w.help_state with
                  pending := ainsert w.help_state.pending pending_id item,
                  counters := { w.help_state.counters with
                                tech_submitted := w.help_state.counters.tech_submitted + 1 } }
      let kbs := [encode_admin_tech pending_id "reply", encode_admin_tech pending_id "ignore"]
      let capText := "Tech issue (media) from " ++ full_name ++ " (id: " ++ toString uid ++
        ")\nCaption: " ++ caption
      let fan := adminIds.filterMap fun aid =>
        if deliver aid then some (OutEvent.sendMessage aid capText kbs) else none
      let s2 := { s1 with users := ainsert s1.users uid { user_rec with last_action := none } }
      ({ w with help_state := s2 },
       OutEvent.saveState s1 :: fan ++
       [.saveState s2,
        .replyText "Thanks — your technical issue (media) has been forwarded to admin. We\x27ll notify you when it\x27s resolved."])

/-- The `quick_reply` branch of `text_handler` (lines 626-647): a falsy
target cancels the session; otherwise the text is forwarded (failures
caught and reported); the pending ticket is popped and saved whether or
not the forward succeeded; the session is cleared. -/
def quickReplyStep (w : World) (uid : Int) (text : String) (deliver : Int → Bool)
    (sess : AdminSession) : World × List OutEvent :=
  let tgt : Option Int :=
    match sess.target_user with
    | some t => if t = 0 then none else some t
    | none => none
  match tgt with
  | none =>
    ({ w with admin_sessions := apop w.admin_sessions uid },
     [.replyText "No target user found; cancelling session."])
  | some t =>
    let sendEvts :=
      if deliver t then
        [OutEvent.sendMessage t ("Admin: " ++ text) [], OutEvent.replyText "Reply sent to user."]
      else [OutEvent.replyText "Failed to send reply: error"]
    let popSave : HelpState × List OutEvent :=
      match sess.pending_id with
      | some pid =>
        if pid ≠ "" ∧ (alookup w.help_state.pending pid).isSome then
          let s1 := { w.help_state with pending := apop w.help_state.pending pid }
          (s1, [OutEvent.saveState s1])
        else (w.help_state, [])
      | none => (w.help_state, [])
    ({ help_state := popSave.1, admin_sessions := apop w.admin_sessions uid },
     sendEvts ++ popSave.2)

/-- The `set_vip` admin-session branch of `text_handler` (lines 650-655). -/
def sessionSetVip (w : World) (uid : Int) (text : String) : World × List OutEvent :=
  let s1 := { w.help_state with vip_link := pyStrip text }
  ({ help_state := s1, admin_sessions := apop w.admin_sessions uid },
   [.saveState s1, .replyText "VIP link saved."])

/-- The `set_dark` admin-session branch of `text_handler` (lines 656-661). -/
def sessionSetDark (w : World) (uid : Int) (text : String) : World × List OutEvent :=
  let s1 := { w.help_state with dark_link := pyStrip text }
  ({ help_state := s1, admin_sessions := apop w.admin_sessions uid },
   [.saveState s1, .replyText "DARK link saved."])

/-- The `set_both` admin-session branch of `text_handler` (lines
662-673): fewer than two whitespace-separated parts leaves the session
alive. -/
def sessionSetBoth (w : World) (uid : Int) (text : String) : World × List OutEvent :=
  let parts := pySplitWs (pyStrip text)
  if parts.length ≥ 2 then
    let s1 := { w.help_state with vip_link := pyStrip (parts.getD 0 ""),
                                  dark_link := pyStrip (parts.getD 1 "") }
    ({ help_state := s1, admin_sessions := apop w.admin_sessions uid },
     [.saveState s1, .replyText "VIP and DARK links saved."])
  else
    (w, [.replyText "Please send two URLs separated by a space or newline: VIP_URL DARK_URL"])

/-- The `broadcast` admin-session branch of `text_handler` (lines
674-685): best-effort fan-out to every recorded user, counting only the
successful sends. -/
def sessionBroadcast (w : World) (uid : Int) (text : String) (deliver : Int → Bool) :
    World × List OutEvent :=
  let recips := w.help_state.users.map (fun p => p.1)
  let evts := recips.filterMap fun u =>
    if deliver u then some (OutEvent.sendMessage u text []) else none
  ({ w with admin_sessions := apop w.admin_sessions uid },
   evts ++ [.replyText ("Broadcast sent to " ++ toString (recips.filter (fun u => deliver u)).length ++ " users.")])

/-- The `awaiting_tech` text branch of `text_handler` (lines 699-727):
create the tech ticket (id `str(int(time.time()*1000))`, here
`toString now`), bump the counter, save, fan out to the admins, reset
the flow state, save again, confirm to the user.  `w0` is the world
after the `setdefault` on entry to the user-flow section, `user_rec`
the record it returned. -/
def techTextSubmit (adminIds : List Int) (w0 : World) (uid : Int) (full_name text : String)
    (now : Nat) (deliver : Int → Bool) (user_rec : UserRec) : World × List OutEvent :=
  let pending_id := toString now
  let item : PendingItem := { ptype := "tech", user_id := uid, text := some text }
  let s1 := { w0.help_state with
              pending := ainsert w0.help_state.pending pending_id item,
              counters := { w0.help_state.counters with
                            tech_submitted := w0.help_state.counters.tech_submitted + 1 } }
  let msg := "Tech issue from " ++ full_name ++ " (id: " ++ toString uid ++ ")\n\n" ++ text
  let kbs := [encode_admin_tech pending_id "reply", encode_admin_tech pending_id "ignore"]
  let fan := adminIds.filterMap fun aid =>
    if deliver aid then some (OutEvent.sendMessage aid msg kbs) else none
  let s2 := { s1 with users := ainsert s1.users uid { user_rec with last_action := none } }
  ({ w0 with help_state := s2 },
   OutEvent.saveState s1 :: fan ++
   [.saveState s2,
    .replyText "Thanks — your technical issue has been forwarded to admin. We\x27ll notify you when it\x27s resolved."])

/-- The admin-command section of `text_handler` (lines 731-824): each
command is guarded by `uid in ADMIN_IDS`; everything else falls to the
generic reminder.  `w0` is the world after the user-flow `setdefault`. -/
def adminCommands (w0 : World) (adminIds : List Int) (uid : Int) (text : String)
    (deliver : Int → Bool) : World × List OutEvent :=
  if pyStartsWith text "/reply" = true ∧ uid ∈ adminIds then
    let parts := pySplitMax text 2
    if parts.length < 3 then (w0, [.replyText "Usage: /reply <user_id> <your message>"])
    else
      match pyInt (parts.getD 1 "") with
      | none => (w0, [.replyText "Invalid user id."])
      | some target =>
        if deliver target then
          (w0, [.sendMessage target ("Admin: " ++ parts.getD 2 "") [],
                .replyText "Sent reply to user."])
        else (w0, [.replyText "Failed to send message: error"])
  else if pyStartsWith text "/set_vip_link" = true ∧ uid ∈ adminIds then
    let parts := pySplitMax text 1
    if parts.length < 2 then (w0, [.replyText "Usage: /set_vip_link <url>"])
    else
      let s1 := { w0.help_state with vip_link := pyStrip (parts.getD 1 "") }
      ({ w0 with help_state := s1 }, [.saveState s1, .replyText "VIP link saved."])
  else if pyStartsWith text "/set_dark_link" = true ∧ uid ∈ adminIds then
    let parts := pySplitMax text 1
    if parts.length < 2 then (w0, [.replyText "Usage: /set_dark_link <url>"])
    else
      let s1 := { w0.help_state with dark_link := pyStrip (parts.getD 1 "") }
      ({ w0 with help_state := s1 }, [.saveState s1, .replyText "DARK link saved."])
  else if pyStartsWith text "/set_both_link" = true ∧ uid ∈ adminIds then
    let parts := pySplitMax text 2
    if parts.length < 3 then (w0, [.replyText "Usage: /set_both_link <vip_url> <dark_url>"])
    else
      let s1 := { w0.help_state with vip_link := pyStrip (parts.getD 1 ""),
                                     dark_link := pyStrip (parts.getD 2 "") }
      ({ w0 with help_state := s1 }, [.saveState s1, .replyText "VIP and DARK links saved."])
  else if pyStartsWith text "/get_links" = true ∧ uid ∈ adminIds then
    (w0, [.replyText (linksText w0.help_state)])
  else if pyStartsWith text "/admin" = true ∧ uid ∈ adminIds then
    (w0, [.sendMessage uid "Admin panel — choose an action:" adminPanelButtons])
  else if pyStartsWith text "/broadcast" = true ∧ uid ∈ adminIds then
    let parts := pySplitMax text 1
    if parts.length < 2 then (w0, [.replyText "Usage: /broadcast <message>"])
    else
      let msg := parts.getD 1 ""
      let recips := w0.help_state.users.map (fun p => p.1)
      let evts := recips.filterMap fun u =>
        if deliver u then some (OutEvent.sendMessage u msg []) else none
      (w0, evts ++ [.replyText ("Broadcast sent to " ++ toString (recips.filter (fun u => deliver u)).length ++ " users.")])
  else if pyStartsWith text "/insights" = true ∧ uid ∈ adminIds then
    (w0, [.replyText (insightsText w0.help_state)])
  else
    (w0, [.replyText "If you have an issue please use /start and choose the right button. For other help contact @Vip_Help_center1222_bot"])

/-- The user-flow section of `text_handler` (lines 688-727 and onward):
`setdefault` the user record; an idle user whose text is not a command
is reminded to use the menu; an `awaiting_tech` user's text becomes a
tech ticket; everything else continues to the command section. -/
def textUserFlow (adminIds : List Int) (w : World) (uid : Int) (full_name text : String)
    (now : Nat) (deliver : Int → Bool) : World × List OutEvent :=
  let users0 := asetdefault w.help_state.users uid {}
  let w0 := { w with help_state := { w.help_state with users := users0 } }
  let user_rec := (alookup users0 uid).getD {}
  if user_rec.last_action = none ∧ pyStartsWith text "/" = false then
    (w0, [.replyText "⚠️ Please choose your issue using /start and tap the buttons before messaging. This helps us fast-track your request."])
  else if user_rec.last_action = some "awaiting_tech" then
    techTextSubmit adminIds w0 uid full_name text now deliver user_rec
  else
    adminCommands w0 adminIds uid text deliver

/-- `text_handler` (lines 604-824): `/cancel` from an admin clears the
caller's session; otherwise an allow-listed sender's active session
consumes the text (`quick_reply` / `set_vip` / `set_dark` / `set_both`
/ `broadcast`; an unrecognised session action falls through); otherwise
the user-flow/command section runs. -/
def text_handler (adminIds : List Int) (w : World) (uid : Int) (full_name text : String)
    (now : Nat) (deliver : Int → Bool) : World × List OutEvent :=
  if pyLower (pyStrip text) = "/cancel" ∧ uid ∈ adminIds then
    match alookup w.admin_sessions uid with
    | some _ =>
      ({ w with admin_sessions := apop w.admin_sessions uid },
       [.replyText "Admin session cancelled."])
    | none => (w, [.replyText "No active admin session."])
  else
    match (if uid ∈ adminIds then alookup w.admin_sessions uid else none) with
    | some sess =>
      if sess.action = "quick_reply" then quickReplyStep w uid text deliver sess
      else if sess.action = "set_vip" then sessionSetVip w uid text
      else if sess.action = "set_dark" then sessionSetDark w uid text
      else if sess.action = "set_both" then sessionSetBoth w uid text
      else if sess.action = "broadcast" then sessionBroadcast w uid text deliver
      else textUserFlow adminIds w uid full_name text now deliver
    | none => textUserFlow adminIds w uid full_name text now deliver

/-- `handle_buttons` (lines 160-259), factored through the pure token
decoder `dispatch`: user-flow buttons mutate only the user's record;
`adminpanel_*` requires the presser to be allow-listed and installs the
matching session (or shows insights/links); `admin_pay_*` /
`admin_tech_*` delegate to the ticket-action handlers; an unrecognised
token falls off the end of the function with no response. -/
def handle_buttons (adminIds : List Int) (w : World) (uid : Int) (data : String)
    (now : Nat) : World × List OutEvent :=
  match dispatch data with
  | .issuePayment => (w, [.editMessage "You chose *Payment issue*. Select the service:"])
  | .paymentService which =>
    let rec0 := (alookup w.help_state.users uid).getD {}
    let users1 := ainsert (asetdefault w.help_state.users uid {}) uid
      { rec0 with last_action := some "awaiting_payment", last_service := some which }
    let s1 := { w.help_state with users := users1 }
    ({ w with help_state := s1 },
     [.saveState s1,
      .editMessage "Please send a screenshot of the payment (photo / document). You can also include an optional UTR/Reference number in the caption or a following message."])
  | .issueTech =>
    let rec0 := (alookup w.help_state.users uid).getD {}
    let users1 := ainsert (asetdefault w.help_state.users uid {}) uid
      { rec0 with last_action := some "awaiting_tech" }
    let s1 := { w.help_state with users := users1 }
    ({ w with help_state := s1 },
     [.saveState s1,
      .editMessage "Please describe your technical issue in as much detail as possible. Then send."])
  | .issueOther => (w, [.editMessage "For other issues please contact @Vip_Help_center1222_bot"])
  | .adminPanel act =>
    if uid ∈ adminIds then
      if act = "set_vip" then
        ({ w with admin_sessions := ainsert w.admin_sessions uid { action := "set_vip" } },
         [.editMessage "Send the VIP link now (just paste the URL as a message)."])
      else if act = "set_dark" then
        ({ w with admin_sessions := ainsert w.admin_sessions uid { action := "set_dark" } },
         [.editMessage "Send the DARK link now (just paste the URL as a message)."])
      else if act = "set_both" then
        ({ w with admin_sessions := ainsert w.admin_sessions uid { action := "set_both" } },
         [.editMessage "Send VIP and DARK links separated by a space (VIP_URL DARK_URL) or newline."])
      else if act = "broadcast" then
        ({ w with admin_sessions := ainsert w.admin_sessions uid { action := "broadcast" } },
         [.editMessage "Send the broadcast message text now. It will be sent to all recorded users."])
      else if act = "insights" then (w, [.editMessage (insightsText w.help_state)])
      else if act = "get_links" then (w, [.editMessage (linksText w.help_state)])
      else (w, [])
    else (w, [.answerCb "Unauthorized"])
  | .adminPayInvalid => (w, [.answerCb "Invalid callback payload"])
  | .adminPay pid act => handle_admin_payment_action adminIds w uid pid act
  | .adminTechInvalid => (w, [.answerCb "Invalid callback payload"])
  | .adminTech pid act => handle_admin_tech_action adminIds w uid pid act now
  | .unmatched => (w, [])

/-- File-system operations `save_state` (lines 82-87) performs:
`open(STATE_FILE, "w")` truncates the state file in place, then
`json.dump` writes the serialized state into it.  There is no temporary
file and no rename. -/
inductive FileOp where
  | openTruncate (path : String)
  | writeContent (path : String) (content : String)
deriving DecidableEq, Repr

/-- The persisted state file (`DATA_DIR/helpcenter_state.json`). -/
def STATE_FILE_PATH : String := "helpcenter_state.json"

/-- The operation sequence of one `save_state` call, parametrised by the
serialized JSON text. -/
def save_state_ops (serialized : String) : List FileOp :=
  [.openTruncate STATE_FILE_PATH, .writeContent STATE_FILE_PATH serialized]

/-- The path an operation touches. -/
def FileOp.path : FileOp → String
  | .openTruncate p => p
  | .writeContent p _ => p

/-- Single-file disk model: the content of the state file after running
a (possibly truncated, i.e. interrupted) operation sequence.
`open(.., "w")` leaves an empty file; a completed write leaves the new
content. -/
def runOps (disk : Option String) : List FileOp → Option String
  | [] => disk
  | FileOp.openTruncate _ :: rest => runOps (some "") rest
  | FileOp.writeContent _ c :: rest => runOps (some c) rest

/-- Is the event a `save_state` call? -/
def isSaveEvt : OutEvent → Bool
  | .saveState _ => true
  | _ => false

/-- Is the event an outbound delivery to an explicit chat
(`send_message`/`send_photo`/`send_document`)? -/
def isSendEvt : OutEvent → Bool
  | .sendMessage _ _ _ => true
  | _ => false

/-- True when the first outbound notification of the trace precedes a
later `save_state` call, i.e. the mutation that save persists is
written to disk only after the notification went out. -/
def notifySentBeforeSave : List OutEvent → Bool
  | [] => false
  | OutEvent.saveState _ :: _ => false
  | OutEvent.sendMessage _ _ _ :: rest => rest.any isSaveEvt
  | _ :: rest => notifySentBeforeSave rest

/-- The frame of claim C1: global link config, counters and the admin
sessions are untouched. -/
def configSessionsPreserved (w w' : World) : Prop :=
  w'.help_state.vip_link = w.help_state.vip_link ∧
  w'.help_state.dark_link = w.help_state.dark_link ∧
  w'.help_state.counters = w.help_state.counters ∧
  w'.admin_sessions = w.admin_sessions

/-- World with admin 1 in a quick-reply session (no persisted data). -/
def cw1 : World :=
  { admin_sessions := [(1, { action := "quick_reply", target_user := some 5,
                             pending_id := some "777", started_at := some 0 })] }

/-- World with user 10 awaiting payment evidence (service VIP) and user
11 awaiting a tech description. -/
def cw2 : World :=
  { help_state := { users :=
      [(10, { last_action := some "awaiting_payment", last_service := some "vip" }),
       (11, { last_action := some "awaiting_tech" })] } }

/-- World with a pending payment ticket `500` from user 5, user 7
awaiting a tech description and user 8 awaiting payment evidence. -/
def cw3 : World :=
  { help_state := { users :=
      [(7, { last_action := some "awaiting_tech" }),
       (8, { last_action := some "awaiting_payment", last_service := some "vip" })],
                    pending := [("500", { ptype := "payment", user_id := 5,
                                          service := some "vip", caption := some "utr" })],
                    vip_link := "https://vip.example" } }

/-- World with a pending payment ticket `600` and a pending tech ticket
`601`. -/
def cw4 : World :=
  { help_state := { pending :=
      [("600", { ptype := "payment", user_id := 5, service := some "vip", caption := some "x" }),
       ("601", { ptype := "tech", user_id := 6, text := some "y" })] } }

/-- World with a pending tech ticket `777` from user 5 and admin 1 in a
quick-reply session bound to it. -/
def cw5 : World :=
  { help_state := { pending := [("777", { ptype := "tech", user_id := 5, text := some "halp" })] },
    admin_sessions := [(1, { action := "quick_reply", target_user := some 5,
                             pending_id := some "777", started_at := some 0 })] }

/-- World with the pending tech ticket `777` from user 5 and no admin
session yet. -/
def cw5b : World :=
  { help_state := { pending := [("777", { ptype := "tech", user_id := 5, text := some "halp" })] } }

/-- World with a pending payment ticket `123` and a configured VIP
link. -/
def cw8 : World :=
  { help_state := { pending := [("123", { ptype := "payment", user_id := 5, caption := some "c" })],
                    vip_link := "https://vip.example" } }

/-- World with a pending payment ticket `500` (service VIP) and both
links unconfigured. -/
def cw9 : World :=
  { help_state := { pending := [("500", { ptype := "payment", user_id := 5,
                                          service := some "vip", caption := some "utr" })] } }

/-- World with an existing record for user 9 who is mid payment flow. -/
def cw10 : World :=
  { help_state := { users := [(9, { first_name := some "Z",
                                    last_action := some "awaiting_payment",
                                    last_service := some "dark" })] } }

theorem alookup_apop_self {α β : Type} [DecidableEq α] (m : List (α × β)) (k : α) :
    alookup (apop m k) k = none := by
  induction m with
  | nil => rfl
  | cons p ps ih =>
    by_cases h : p.1 = k <;> simp [apop, List.filter_cons, h, alookup] at ih ⊢ <;>
      simpa [apop] using ih

theorem alookup_append_left_none {α β : Type} [DecidableEq α] (m l : List (α × β)) (k : α)
    (h : alookup m k = none) : alookup (m ++ l) k = alookup l k := by
  induction m with
  | nil => rfl
  | cons p ps ih =>
    by_cases hp : p.1 = k
    · simp [alookup, hp] at h
    · simp [alookup, hp] at h ⊢
      exact ih h

theorem alookup_mapset_self {α β : Type} [DecidableEq α] (m : List (α × β)) (k : α) (v : β)
    (h : (alookup m k).isSome) :
    alookup (m.map (fun p => if p.1 = k then (k, v) else p)) k = some v := by
  induction m with
  | nil => simp [alookup] at h
  | cons p ps ih =>
    by_cases hp : p.1 = k
    · simp [alookup, hp]
    · simp [alookup, hp] at h ⊢
      exact ih h

theorem alookup_ainsert_self {α β : Type} [DecidableEq α] (m : List (α × β)) (k : α) (v : β) :
    alookup (ainsert m k v) k = some v := by
  unfold ainsert
  by_cases h : (alookup m k).isSome
  · simpa [h] using alookup_mapset_self m k v h
  · have h0 : alookup m k = none := by
      cases hh : alookup m k
      · rfl
      · simp [hh] at h
    simp [h, alookup_append_left_none m _ k h0, alookup]

theorem alookup_asetdefault_self {α β : Type} [DecidableEq α] (m : List (α × β)) (k : α) (v : β) :
    alookup (asetdefault m k v) k = some ((alookup m k).getD v) := by
  unfold asetdefault
  by_cases h : (alookup m k).isSome
  · obtain ⟨x, hx⟩ := Option.isSome_iff_exists.mp h
    simp [h, hx]
  · have h0 : alookup m k = none := by
      cases hh : alookup m k
      · rfl
      · simp [hh] at h
    simp [h, h0, alookup_append_left_none m _ k h0, alookup]

theorem splitFirst_append (a b : List Char) (h : '_' ∉ a) :
    splitFirst '_' (a ++ '_' :: b) = some (a, b) := by
  induction a with
  | nil => simp [splitFirst]
  | cons c cs ih =>
    have hc : c ≠ '_' := fun hh => h (hh ▸ List.mem_cons_self c cs)
    have hcs : '_' ∉ cs := fun hh => h (List.mem_cons_of_mem c hh)
    simp [splitFirst, hc, ih hcs]

theorem fan_all_send (l : List Int) (f : Int → Bool) (msg : String) (kbs : List String) :
    ∀ e ∈ l.filterMap (fun aid => if f aid then some (OutEvent.sendMessage aid msg kbs) else none),
      ∃ c m b, e = OutEvent.sendMessage c m b := by
  intro e he
  obtain ⟨a, _, hfa⟩ := List.mem_filterMap.mp he
  by_cases hf : f a
  · simp [hf] at hfa
    exact ⟨a, msg, kbs, hfa.symm⟩
  · simp [hf] at hfa

/-- C9: approving a payment ticket (vip, dark or both) while every link
applicable to the chosen service is empty answers "No link configured",
performs no state mutation, leaves the ticket pending for retry, sends
nothing to the user and keeps the counters (hence `links_sent`)
unchanged. -/
theorem C9_no_link_noop (adminIds : List Int) (w : World) (a : Int) (pid act : String)
    (p : PendingItem) (ha : a ∈ adminIds) (hp : alookup w.help_state.pending pid = some p)
    (hact : (act = "vip" ∧ w.help_state.vip_link = "") ∨
            (act = "dark" ∧ w.help_state.dark_link = "") ∨
            (act = "both" ∧ w.help_state.vip_link = "" ∧ w.help_state.dark_link = "")) :
    handle_admin_payment_action adminIds w a pid act =
      (w, [.answerCb "No link configured for the chosen service. Use /set_vip_link or /set_dark_link first."]) ∧
    alookup (handle_admin_payment_action adminIds w a pid act).1.help_state.pending pid = some p ∧
    (handle_admin_payment_action adminIds w a pid act).1.help_state.counters = w.help_state.counters ∧
    (handle_admin_payment_action adminIds w a pid act).2.all (fun e => !isSendEvt e) = true := by
  have hmain : handle_admin_payment_action adminIds w a pid act =
      (w, [.answerCb "No link configured for the chosen service. Use /set_vip_link or /set_dark_link first."]) := by
    rcases hact with ⟨h1, hv⟩ | ⟨h1, hd⟩ | ⟨h1, hv, hd⟩
    · subst h1
      simp [handle_admin_payment_action, ha, hp, hv,
        show ("vip" : String) ≠ "decline" by decide,
        show ("vip" : String) ≠ "dark" by decide,
        show ("vip" : String) ≠ "both" by decide]
    · subst h1
      simp [handle_admin_payment_action, ha, hp, hd,
        show ("dark" : String) ≠ "decline" by decide,
        show ("dark" : String) ≠ "vip" by decide,
        show ("dark" : String) ≠ "both" by decide]
    · subst h1
      simp [handle_admin_payment_action, ha, hp, hv, hd,
        show ("both" : String) ≠ "decline" by decide,
        show ("both" : String) ≠ "vip" by decide,
        show ("both" : String) ≠ "dark" by decide]
  refine ⟨hmain, ?_, ?_, ?_⟩
  · simp [hmain, hp]
  · simp [hmain]
  · simp [hmain, isSendEvt]

/-- C9 witness: the theorem applied to the concrete world `cw9` with an
approve-VIP press while `vip_link` is empty. -/
theorem C9_no_link_noop_witness :
    handle_admin_payment_action [1] cw9 1 "500" "vip" =
      (cw9, [.answerCb "No link configured for the chosen service. Use /set_vip_link or /set_dark_link first."]) ∧
    alookup (handle_admin_payment_action [1] cw9 1 "500" "vip").1.help_state.pending "500" =
      some { ptype := "payment", user_id := 5, service := some "vip", caption := some "utr" } ∧
    (handle_admin_payment_action [1] cw9 1 "500" "vip").1.help_state.counters = cw9.help_state.counters ∧
    (handle_admin_payment_action [1] cw9 1 "500" "vip").2.all (fun e => !isSendEvt e) = true :=
  C9_no_link_noop [1] cw9 1 "500" "vip"
    { ptype := "payment", user_id := 5, service := some "vip", caption := some "utr" }
    (by decide) (by decide) (Or.inl ⟨rfl, rfl⟩)

/-- C10: `/start` from a user who already has a record leaves the whole
world unchanged (record, flow state and service preserved), and running
`start` twice always produces the same state as running it once. -/
theorem C10_start_idempotent (w : World) (uid : Int) (fn : String)
    (h : (alookup w.help_state.users uid).isSome) :
    (start w uid fn).1 = w ∧
    ∀ (w' : World) (uid' : Int) (fn' : String),
      (start (start w' uid' fn').1 uid' fn').1 = (start w' uid' fn').1 := by
  constructor
  · unfold start
    simp [asetdefault, h]
  · intro w' uid' fn'
    have hs : (alookup (start w' uid' fn').1.help_state.users uid').isSome := by
      have : alookup (start w' uid' fn').1.help_state.users uid' =
          some ((alookup w'.help_state.users uid').getD
            { first_name := some fn', issues := some [] }) :=
        alookup_asetdefault_self _ _ _
      simp [this]
    conv_lhs => rw [start]
    simp [asetdefault, hs]

/-- C10 witness: the theorem applied to `cw10`, whose user 9 is mid
payment flow. -/
theorem C10_start_idempotent_witness :
    (start cw10 9 "Zed").1 = cw10 ∧
    ∀ (w' : World) (uid' : Int) (fn' : String),
      (start (start w' uid' fn').1 uid' fn').1 = (start w' uid' fn').1 :=
  C10_start_idempotent cw10 9 "Zed" (by decide)

theorem pay_action_notfound (adminIds : List Int) (w : World) (a : Int) (pid act : String)
    (ha : a ∈ adminIds) (h : alookup w.help_state.pending pid = none) :
    handle_admin_payment_action adminIds w a pid act = (w, [.answerCb "Pending item not found"]) := by
  simp [handle_admin_payment_action, ha, h]

theorem tech_action_notfound (adminIds : List Int) (w : World) (a : Int) (pid act : String)
    (now : Nat) (ha : a ∈ adminIds) (h : alookup w.help_state.pending pid = none) :
    handle_admin_tech_action adminIds w a pid act now =
      (w, [.answerCb "Pending item not found",
           .editMessage "This pending item was already handled or expired."]) := by
  simp [handle_admin_tech_action, ha, h]

theorem decline_removes (adminIds : List Int) (w : World) (a : Int) (pid : String)
    (p : PendingItem) (ha : a ∈ adminIds) (hp : alookup w.help_state.pending pid = some p) :
    alookup (handle_admin_payment_action adminIds w a pid "decline").1.help_state.pending pid = none := by
  simp [handle_admin_payment_action, ha, hp, alookup_apop_self]

theorem ignore_removes (adminIds : List Int) (w : World) (a : Int) (pid : String) (now : Nat)
    (p : PendingItem) (ha : a ∈ adminIds) (hp : alookup w.help_state.pending pid = some p) :
    alookup (handle_admin_tech_action adminIds w a pid "ignore" now).1.help_state.pending pid = none := by
  simp [handle_admin_tech_action, ha, hp, alookup_apop_self]

/-- C4: once a ticket has been resolved (payment decline, or tech
ignore), the ticket is gone from the registry and ANY second action on
the same id — approve, decline, ignore, reply — returns the
not-found response, leaves the world exactly as it was, and sends no
message to the ticket's user (the whole trace is the not-found
answer). -/
theorem C4_resolve_twice (adminIds : List Int) (w : World) (a1 a2 : Int) (pid : String)
    (p : PendingItem) (now : Nat) (h1 : a1 ∈ adminIds) (h2 : a2 ∈ adminIds)
    (hp : alookup w.help_state.pending pid = some p) :
    (alookup (handle_admin_payment_action adminIds w a1 pid "decline").1.help_state.pending pid = none ∧
     ∀ act,
       handle_admin_payment_action adminIds (handle_admin_payment_action adminIds w a1 pid "decline").1 a2 pid act =
         ((handle_admin_payment_action adminIds w a1 pid "decline").1, [.answerCb "Pending item not found"]) ∧
       handle_admin_tech_action adminIds (handle_admin_payment_action adminIds w a1 pid "decline").1 a2 pid act now =
         ((handle_admin_payment_action adminIds w a1 pid "decline").1,
          [.answerCb "Pending item not found",
           .editMessage "This pending item was already handled or expired."])) ∧
    (alookup (handle_admin_tech_action adminIds w a1 pid "ignore" now).1.help_state.pending pid = none ∧
     ∀ act,
       handle_admin_payment_action adminIds (handle_admin_tech_action adminIds w a1 pid "ignore" now).1 a2 pid act =
         ((handle_admin_tech_action adminIds w a1 pid "ignore" now).1, [.answerCb "Pending item not found"]) ∧
       handle_admin_tech_action adminIds (handle_admin_tech_action adminIds w a1 pid "ignore" now).1 a2 pid act now =
         ((handle_admin_tech_action adminIds w a1 pid "ignore" now).1,
          [.answerCb "Pending item not found",
           .editMessage "This pending item was already handled or expired."])) := by
  have hd := decline_removes adminIds w a1 pid p h1 hp
  have hi := ignore_removes adminIds w a1 pid now p h1 hp
  exact ⟨⟨hd, fun act => ⟨pay_action_notfound adminIds _ a2 pid act h2 hd,
                          tech_action_notfound adminIds _ a2 pid act now h2 hd⟩⟩,
         ⟨hi, fun act => ⟨pay_action_notfound adminIds _ a2 pid act h2 hi,
                          tech_action_notfound adminIds _ a2 pid act now h2 hi⟩⟩⟩

/-- C4 witness: decline-then-approve on payment ticket `600` of `cw4`,
and ignore-then-ignore on tech ticket `601`. -/
theorem C4_resolve_twice_witness :
    alookup (handle_admin_payment_action [1] cw4 1 "600" "decline").1.help_state.pending "600" = none ∧
    handle_admin_payment_action [1] (handle_admin_payment_action [1] cw4 1 "600" "decline").1 1 "600" "vip" =
      ((handle_admin_payment_action [1] cw4 1 "600" "decline").1, [.answerCb "Pending item not found"]) ∧
    handle_admin_tech_action [1] (handle_admin_tech_action [1] cw4 1 "601" "ignore" 0).1 1 "601" "ignore" 0 =
      ((handle_admin_tech_action [1] cw4 1 "601" "ignore" 0).1,
       [.answerCb "Pending item not found",
        .editMessage "This pending item was already handled or expired."]) := by
  have t1 := C4_resolve_twice [1] cw4 1 1 "600"
    { ptype := "payment", user_id := 5, service := some "vip", caption := some "x" } 0
    (by decide) (by decide) (by decide)
  have t2 := C4_resolve_twice [1] cw4 1 1 "601"
    { ptype := "tech", user_id := 6, text := some "y" } 0
    (by decide) (by decide) (by decide)
  exact ⟨t1.1.1, (t1.1.2 "vip").1, (t2.2.2 "ignore").2⟩

theorem strData_append (a b : String) : (a ++ b).data = a.data ++ b.data := rfl

/-- C7: the tokens built for payment tickets (`admin_pay_<id>_<action>`
with action vip/dark/both/decline) and tech tickets
(`admin_tech_<id>_<action>` with action reply/ignore) are routed to the
generic button handler and decoded back to exactly the original domain,
ticket id and action, for every decimal-digit ticket id. -/
theorem C7_round_trip (pid payAct techAct : String)
    (hdig : ∀ c ∈ pid.data, c.isDigit = true)
    (hpa : payAct ∈ (["vip", "dark", "both", "decline"] : List String))
    (hta : techAct ∈ (["reply", "ignore"] : List String)) :
    route (encode_admin_pay pid payAct) = .buttons (.adminPay pid payAct) ∧
    route (encode_admin_tech pid techAct) = .buttons (.adminTech pid techAct) := by
  have hnu : '_' ∉ pid.data := fun hh => absurd (hdig _ hh) (by decide)
  constructor
  · have hd1 : (encode_admin_pay pid payAct).data =
        "admin_pay_".data ++ (pid.data ++ ('_' :: payAct.data)) := by
      simp [encode_admin_pay, strData_append, List.append_assoc,
        show "_".data = ['_'] from rfl]
    have hd2 : (encode_admin_pay pid payAct).data =
        'a' :: 'd' :: 'm' :: 'i' :: 'n' :: '_' :: 'p' :: 'a' :: 'y' :: '_' ::
          (pid.data ++ '_' :: payAct.data) := by
      rw [hd1]; rfl
    calc route (encode_admin_pay pid payAct)
        = .buttons (match splitFirst '_' (pid.data ++ '_' :: payAct.data) with
                    | some (a, b) => BtnDispatch.adminPay (String.mk a) (String.mk b)
                    | none => BtnDispatch.adminPayInvalid) := by
          unfold route dispatch
          rw [hd2]; rfl
      _ = .buttons (.adminPay pid payAct) := by
          rw [splitFirst_append _ _ hnu]
  · have hd1 : (encode_admin_tech pid techAct).data =
        "admin_tech_".data ++ (pid.data ++ ('_' :: techAct.data)) := by
      simp [encode_admin_tech, strData_append, List.append_assoc,
        show "_".data = ['_'] from rfl]
    have hd2 : (encode_admin_tech pid techAct).data =
        'a' :: 'd' :: 'm' :: 'i' :: 'n' :: '_' :: 't' :: 'e' :: 'c' :: 'h' :: '_' ::
          (pid.data ++ '_' :: techAct.data) := by
      rw [hd1]; rfl
    calc route (encode_admin_tech pid techAct)
        = .buttons (match splitFirst '_' (pid.data ++ '_' :: techAct.data) with
                    | some (a, b) => BtnDispatch.adminTech (String.mk a) (String.mk b)
                    | none => BtnDispatch.adminTechInvalid) := by
          unfold route dispatch
          rw [hd2]; rfl
      _ = .buttons (.adminTech pid techAct) := by
          rw [splitFirst_append _ _ hnu]

/-- C7 witness: round trip for ticket id `123` with actions `vip` and
`reply`. -/
theorem C7_round_trip_witness :
    route (encode_admin_pay "123" "vip") = .buttons (.adminPay "123" "vip") ∧
    route (encode_admin_tech "123" "reply") = .buttons (.adminTech "123" "reply") :=
  C7_round_trip "123" "vip" "reply" (by decide) (by decide) (by decide)

/-- C2 fails on the code: ticket ids are `str(int(time.time()*1000))`
with no counter, so two submissions in the same millisecond — here a
payment media submission by user 10 and a tech text submission by user
11 at `now = 1700000000000` — get the SAME id, and the second
`s["pending"][pending_id] = ...` assignment overwrites the first
ticket: afterwards the registry holds only the tech ticket. -/
theorem C2_same_millisecond_collision :
    (photo_or_doc_handler [1] cw2 10 "Alice" (some "UTR123") true false 1700000000000
        (fun _ => true)).1.help_state.pending =
      [("1700000000000",
        { ptype := "payment", user_id := 10, service := some "vip", caption := some "UTR123" })] ∧
    (text_handler [1]
        (photo_or_doc_handler [1] cw2 10 "Alice" (some "UTR123") true false 1700000000000
          (fun _ => true)).1
        11 "Bob" "it is broken" 1700000000000 (fun _ => true)).1.help_state.pending =
      [("1700000000000",
        { ptype := "tech", user_id := 11, text := some "it is broken" })] := by
  constructor
  · decide
  · decide

/-- C6 fails on the code: `save_state` opens the state file itself with
mode `"w"` (in-place truncation) and then writes the JSON dump; running
only the first operation — an interruption mid-write — leaves an empty
file, destroying the previous valid on-disk state; no operation ever
touches a separate location, so there is no write-then-replace. -/
theorem C6_truncate_in_place :
    save_state_ops "newstate" =
      [.openTruncate STATE_FILE_PATH, .writeContent STATE_FILE_PATH "newstate"] ∧
    runOps (some "oldstate") (save_state_ops "newstate") = some "newstate" ∧
    runOps (some "oldstate") ((save_state_ops "newstate").take 1) = some "" ∧
    some "" ≠ some "oldstate" ∧
    (save_state_ops "newstate").all (fun op => FileOp.path op = STATE_FILE_PATH) = true := by
  refine ⟨rfl, rfl, rfl, by decide, by decide⟩

/-- C8 counterexample: a token with correct field count, known domain
and an EXISTING ticket id but an action outside the fixed alphabet
(`admin_pay_123_frobnicate` against `cw8`) is not rejected with a
protocol-error response; the handler looks the ticket up and answers
"No link configured for the chosen service...", a wrong-but-plausible
interpretation of the token. -/
theorem C8_unknown_action_not_protocol_error :
    handle_buttons [1] cw8 1 "admin_pay_123_frobnicate" 0 =
      (cw8, [.answerCb "No link configured for the chosen service. Use /set_vip_link or /set_dark_link first."]) ∧
    ("No link configured for the chosen service. Use /set_vip_link or /set_dark_link first." : String) ≠
      "Invalid callback payload" ∧
    ("No link configured for the chosen service. Use /set_vip_link or /set_dark_link first." : String) ≠
      "invalid or expired action" := by
  refine ⟨by decide, by decide, by decide⟩

/-- C8 amended: tokens with a wrong field count are answered with
`Invalid callback payload` and cause no state action; tokens whose
action keyword is outside the fixed alphabet also cause no state
mutation, but their response is the handler's ordinary flow
(`No link configured...` / `Unknown action` / not-found), not a
protocol-error response; tokens with an unknown domain are dropped
with no response at all. -/
theorem C8_amended_rejection (adminIds : List Int) (w : World) (uid : Int) (now : Nat) :
    (∀ data, (dispatch data = .adminPayInvalid ∨ dispatch data = .adminTechInvalid) →
      handle_buttons adminIds w uid data now = (w, [.answerCb "Invalid callback payload"])) ∧
    (∀ pid act, act ∉ (["vip", "dark", "both", "decline"] : List String) →
      (handle_admin_payment_action adminIds w uid pid act).1 = w) ∧
    (∀ pid act, act ∉ (["reply", "ignore"] : List String) →
      (handle_admin_tech_action adminIds w uid pid act now).1 = w) ∧
    (∀ data, dispatch data = .unmatched → handle_buttons adminIds w uid data now = (w, [])) := by
  refine ⟨?_, ?_, ?_, ?_⟩
  · intro data h
    rcases h with h | h <;> simp [handle_buttons, h]
  · intro pid act h
    have hv : act ≠ "vip" := fun e => h (by simp [e])
    have hd : act ≠ "dark" := fun e => h (by simp [e])
    have hb : act ≠ "both" := fun e => h (by simp [e])
    have hdec : act ≠ "decline" := fun e => h (by simp [e])
    by_cases ha : uid ∈ adminIds
    · cases hh : alookup w.help_state.pending pid with
      | none => simp [handle_admin_payment_action, ha, hh]
      | some p => simp [handle_admin_payment_action, ha, hh, hv, hd, hb, hdec]
    · simp [handle_admin_payment_action, ha]
  · intro pid act h
    have hr : act ≠ "reply" := fun e => h (by simp [e])
    have hi : act ≠ "ignore" := fun e => h (by simp [e])
    by_cases ha : uid ∈ adminIds
    · cases hh : alookup w.help_state.pending pid with
      | none => simp [handle_admin_tech_action, ha, hh]
      | some p => simp [handle_admin_tech_action, ha, hh, hr, hi]
    · simp [handle_admin_tech_action, ha]
  · intro data h
    simp [handle_buttons, h]

/-- C8 amended witness: wrong field count, unknown payment action,
unknown tech action and unknown domain, all against `cw8`. -/
theorem C8_amended_rejection_witness :
    handle_buttons [1] cw8 1 "admin_pay_123" 0 = (cw8, [.answerCb "Invalid callback payload"]) ∧
    (handle_admin_payment_action [1] cw8 1 "123" "frobnicate").1 = cw8 ∧
    (handle_admin_tech_action [1] cw8 1 "123" "frobnicate" 0).1 = cw8 ∧
    handle_buttons [1] cw8 1 "mystery_token" 0 = (cw8, []) := by
  have t := C8_amended_rejection [1] cw8 1 0
  exact ⟨t.1 "admin_pay_123" (Or.inl (by decide)),
         t.2.1 "123" "frobnicate" (by decide),
         t.2.2.1 "123" "frobnicate" (by decide),
         t.2.2.2 "mystery_token" (by decide)⟩

/-- C5 counterexample: admin 1 is in a quick-reply session bound to
pending tech ticket `777` of user 5; the next admin text is processed
with delivery to the user FAILING, yet the ticket is removed from the
registry and no message reaches any chat — refuting that the ticket is
removed only when the reply is successfully delivered. -/
theorem C5_removed_without_delivery :
    alookup (text_handler [1] cw5 1 "Adm" "the fix" 0 (fun _ => false)).1.help_state.pending "777" = none ∧
    (text_handler [1] cw5 1 "Adm" "the fix" 0 (fun _ => false)).2.all (fun e => !isSendEvt e) = true := by
  refine ⟨by decide, by decide⟩

theorem text_handler_quick_reply (adminIds : List Int) (w' : World) (a : Int)
    (sess : AdminSession) (fn text : String) (now2 : Nat) (deliver : Int → Bool)
    (ha : a ∈ adminIds)
    (hsess : alookup w'.admin_sessions a = some sess)
    (hqr : sess.action = "quick_reply")
    (hnc : pyLower (pyStrip text) ≠ "/cancel") :
    text_handler adminIds w' a fn text now2 deliver = quickReplyStep w' a text deliver sess := by
  simp [text_handler, hnc, ha, hsess, hqr]

theorem quickReplyStep_result (w' : World) (a : Int) (text : String) (deliver : Int → Bool)
    (sess : AdminSession) (t : Int) (pid : String)
    (htg : sess.target_user = some t) (ht0 : t ≠ 0)
    (hpd : sess.pending_id = some pid) (hpid : pid ≠ "")
    (hpend : (alookup w'.help_state.pending pid).isSome) :
    quickReplyStep w' a text deliver sess =
      ({ help_state := { w'.help_state with pending := apop w'.help_state.pending pid },
         admin_sessions := apop w'.admin_sessions a },
       (if deliver t then
          [OutEvent.sendMessage t ("Admin: " ++ text) [], OutEvent.replyText "Reply sent to user."]
        else [OutEvent.replyText "Failed to send reply: error"]) ++
       [OutEvent.saveState { w'.help_state with pending := apop w'.help_state.pending pid }]) := by
  simp [quickReplyStep, htg, ht0, hpd, hpid, hpend]

/-- C5 amended: pressing `reply` on a pending tech ticket keeps the
ticket in the registry and opens a quick-reply session bound to the
ticket's id and user; the admin's next non-`/cancel` text removes the
ticket and clears the session WHETHER OR NOT delivery to the user
succeeds (on failure nothing reaches the user, yet the ticket is still
resolved); `/cancel` — and the cancel button — clear the session,
leave the ticket pending, and send nothing to the user. -/
theorem C5_amended_quick_reply (adminIds : List Int) (w : World) (a t : Int) (pid : String)
    (p : PendingItem) (now : Nat)
    (ha : a ∈ adminIds) (hp : alookup w.help_state.pending pid = some p)
    (ht : p.user_id = t) (ht0 : t ≠ 0) (hpid : pid ≠ "") :
    ((handle_admin_tech_action adminIds w a pid "reply" now).1.help_state = w.help_state ∧
     alookup (handle_admin_tech_action adminIds w a pid "reply" now).1.admin_sessions a =
       some { action := "quick_reply", target_user := some t, pending_id := some pid,
              started_at := some now }) ∧
    (∀ (fn text : String) (now2 : Nat) (deliver : Int → Bool),
      pyLower (pyStrip text) ≠ "/cancel" →
      alookup (text_handler adminIds (handle_admin_tech_action adminIds w a pid "reply" now).1
          a fn text now2 deliver).1.help_state.pending pid = none ∧
      alookup (text_handler adminIds (handle_admin_tech_action adminIds w a pid "reply" now).1
          a fn text now2 deliver).1.admin_sessions a = none ∧
      (deliver t = true →
        OutEvent.sendMessage t ("Admin: " ++ text) [] ∈
          (text_handler adminIds (handle_admin_tech_action adminIds w a pid "reply" now).1
            a fn text now2 deliver).2) ∧
      (deliver t = false →
        (text_handler adminIds (handle_admin_tech_action adminIds w a pid "reply" now).1
          a fn text now2 deliver).2.all (fun e => !isSendEvt e) = true)) ∧
    (∀ (fn : String) (now2 : Nat) (deliver : Int → Bool),
      (text_handler adminIds (handle_admin_tech_action adminIds w a pid "reply" now).1
        a fn "/cancel" now2 deliver).1.help_state = w.help_state ∧
      alookup (text_handler adminIds (handle_admin_tech_action adminIds w a pid "reply" now).1
        a fn "/cancel" now2 deliver).1.admin_sessions a = none ∧
      (text_handler adminIds (handle_admin_tech_action adminIds w a pid "reply" now).1
        a fn "/cancel" now2 deliver).2.all (fun e => !isSendEvt e) = true) ∧
    (∀ (presser : Int) (data : String),
      (splitEvery '_' data.data).length ≥ 4 →
      pyInt (String.mk ((splitEvery '_' data.data).getLastD [])) = some a →
      (handle_quick_cancel adminIds (handle_admin_tech_action adminIds w a pid "reply" now).1
        presser data).1.help_state = w.help_state ∧
      alookup (handle_quick_cancel adminIds (handle_admin_tech_action adminIds w a pid "reply" now).1
        presser data).1.admin_sessions a = none ∧
      (handle_quick_cancel adminIds (handle_admin_tech_action adminIds w a pid "reply" now).1
        presser data).2.all (fun e => !isSendEvt e) = true) := by
  subst ht
  have hr : handle_admin_tech_action adminIds w a pid "reply" now =
      ({ w with admin_sessions := ainsert w.admin_sessions a (AdminSession.mk "quick_reply" (some p.user_id) (some pid) (some now)) },
       [.editMessage "Quick-reply mode: send the reply message here and it will be forwarded to the user.\nTo cancel, press the button below or send /cancel."]) := by
    simp [handle_admin_tech_action, ha, hp, show ("reply" : String) ≠ "ignore" by decide]
  rw [hr]
  refine ⟨⟨rfl, alookup_ainsert_self _ _ _⟩, ?_, ?_, ?_⟩
  · intro fn text now2 deliver hnc
    rw [text_handler_quick_reply adminIds _ a _ fn text now2 deliver ha
          (alookup_ainsert_self _ _ _) rfl hnc,
        quickReplyStep_result _ a text deliver _ p.user_id pid rfl ht0 rfl hpid
          (by simp [hp])]
    refine ⟨alookup_apop_self _ _, alookup_apop_self _ _, ?_, ?_⟩
    · intro hdel
      simp [hdel]
    · intro hdel
      simp [hdel, isSendEvt]
  · intro fn now2 deliver
    refine ⟨?_, ?_, ?_⟩ <;>
      simp [text_handler, show pyLower (pyStrip "/cancel") = "/cancel" from by decide, ha,
            alookup_ainsert_self, alookup_apop_self, isSendEvt]
  · intro presser data hlen hparse
    have hparse2 : pyInt (String.mk ((splitEvery '_' data.data).getLast?.getD [])) = some a := by
      rw [← List.getLastD_eq_getLast?]
      exact hparse
    refine ⟨?_, ?_, ?_⟩ <;>
      simp [handle_quick_cancel, hlen, hparse2, ha, alookup_apop_self, isSendEvt]

/-- C5 amended witness: `cw5b`, admin 1, ticket `777` of user 5; the
failed-delivery reply, the `/cancel` text and the cancel button. -/
theorem C5_amended_quick_reply_witness :
    ((handle_admin_tech_action [1] cw5b 1 "777" "reply" 0).1.help_state = cw5b.help_state ∧
     alookup (handle_admin_tech_action [1] cw5b 1 "777" "reply" 0).1.admin_sessions 1 =
       some { action := "quick_reply", target_user := some 5, pending_id := some "777",
              started_at := some 0 }) ∧
    (alookup (text_handler [1] (handle_admin_tech_action [1] cw5b 1 "777" "reply" 0).1
        1 "Adm" "the fix" 1 (fun _ => false)).1.help_state.pending "777" = none ∧
     alookup (text_handler [1] (handle_admin_tech_action [1] cw5b 1 "777" "reply" 0).1
        1 "Adm" "the fix" 1 (fun _ => false)).1.admin_sessions 1 = none ∧
     (text_handler [1] (handle_admin_tech_action [1] cw5b 1 "777" "reply" 0).1
        1 "Adm" "the fix" 1 (fun _ => false)).2.all (fun e => !isSendEvt e) = true) ∧
    ((text_handler [1] (handle_admin_tech_action [1] cw5b 1 "777" "reply" 0).1
        1 "Adm" "/cancel" 1 (fun _ => true)).1.help_state = cw5b.help_state ∧
     alookup (text_handler [1] (handle_admin_tech_action [1] cw5b 1 "777" "reply" 0).1
        1 "Adm" "/cancel" 1 (fun _ => true)).1.admin_sessions 1 = none ∧
     (text_handler [1] (handle_admin_tech_action [1] cw5b 1 "777" "reply" 0).1
        1 "Adm" "/cancel" 1 (fun _ => true)).2.all (fun e => !isSendEvt e) = true) ∧
    ((handle_quick_cancel [1] (handle_admin_tech_action [1] cw5b 1 "777" "reply" 0).1
        2 "admin_quick_cancel_1").1.help_state = cw5b.help_state ∧
     alookup (handle_quick_cancel [1] (handle_admin_tech_action [1] cw5b 1 "777" "reply" 0).1
        2 "admin_quick_cancel_1").1.admin_sessions 1 = none ∧
     (handle_quick_cancel [1] (handle_admin_tech_action [1] cw5b 1 "777" "reply" 0).1
        2 "admin_quick_cancel_1").2.all (fun e => !isSendEvt e) = true) := by
  have t := C5_amended_quick_reply [1] cw5b 1 5 "777"
    { ptype := "tech", user_id := 5, text := some "halp" } 0
    (by decide) (by decide) rfl (by decide) (by decide)
  have h2 := t.2.1 "Adm" "the fix" 1 (fun _ => false) (by decide)
  exact ⟨t.1, ⟨h2.1, h2.2.1, h2.2.2.2 rfl⟩, t.2.2.1 "Adm" 1 (fun _ => true),
         t.2.2.2 2 "admin_quick_cancel_1" (by decide) (by decide)⟩

/-- C3 counterexample: on a decline of pending ticket `500` in `cw3`,
the first outbound notification (the decline message to the user)
precedes the `save_state` call that persists the ticket's removal — so
the event's mutation is NOT durably saved before the first
notification. -/
theorem C3_notify_precedes_save :
    notifySentBeforeSave (handle_admin_payment_action [1] cw3 1 "500" "decline").2 = true := by
  decide

/-- C1 counterexample: `handle_quick_cancel` authorizes against the
admin id EMBEDDED IN THE CALLBACK DATA (`parts[-1]`), never against the
presser.  Presser 2 is not in the allow-list `[1]`, yet pressing
`admin_quick_cancel_1` clears admin 1's quick-reply session: an
inbound event from a non-admin changes an admin's session. -/
theorem C1_nonadmin_clears_admin_session :
    (2 : Int) ∉ ([1] : List Int) ∧
    (handle_quick_cancel [1] cw1 2 "admin_quick_cancel_1").1.admin_sessions ≠ cw1.admin_sessions := by
  refine ⟨by decide, by decide⟩

theorem adminCommands_nonadmin (w0 : World) (adminIds : List Int) (uid : Int) (text : String)
    (deliver : Int → Bool) (hu : uid ∉ adminIds) :
    adminCommands w0 adminIds uid text deliver =
      (w0, [.replyText "If you have an issue please use /start and choose the right button. For other help contact @Vip_Help_center1222_bot"]) := by
  simp [adminCommands, hu]

/-- C1 amended: every button press and every text (in particular every
admin command) from a sender outside the allow-list leaves the link
config, the counters and ALL admin sessions unchanged — provided the
sender is not mid tech-flow (an `awaiting_tech` sender's text becomes a
ticket and bumps `tech_submitted` regardless of its content) — EXCEPT
the `admin_quick_cancel_*` button: its authorization reads the admin id
embedded in the token, not the presser, so any presser whose token
names an allow-listed admin clears THAT admin's session (the persisted
state is still never touched). -/
theorem C1_amended_authorization (adminIds : List Int) (w : World) (uid : Int)
    (hu : uid ∉ adminIds) :
    (∀ data now, configSessionsPreserved w (handle_buttons adminIds w uid data now).1) ∧
    (∀ fn text now deliver,
      ((alookup w.help_state.users uid).getD {}).last_action ≠ some "awaiting_tech" →
      configSessionsPreserved w (text_handler adminIds w uid fn text now deliver).1) ∧
    (∀ data, (handle_quick_cancel adminIds w uid data).1.help_state = w.help_state) ∧
    (∀ data a, a ∈ adminIds →
      (splitEvery '_' data.data).length ≥ 4 →
      pyInt (String.mk ((splitEvery '_' data.data).getLastD [])) = some a →
      (handle_quick_cancel adminIds w uid data).1.admin_sessions = apop w.admin_sessions a) := by
  refine ⟨?_, ?_, ?_, ?_⟩
  · intro data now
    cases h : dispatch data <;>
      simp [handle_buttons, h, hu, handle_admin_payment_action, handle_admin_tech_action,
            configSessionsPreserved]
  · intro fn text now deliver hflow
    have hc : ¬ (pyLower (pyStrip text) = "/cancel" ∧ uid ∈ adminIds) := fun h => hu h.2
    simp only [text_handler]
    rw [if_neg hc]
    rw [show (if uid ∈ adminIds then alookup w.admin_sessions uid else none) = none from if_neg hu]
    show configSessionsPreserved w (textUserFlow adminIds w uid fn text now deliver).1
    simp only [textUserFlow]
    rw [alookup_asetdefault_self]
    simp only [Option.getD_some]
    by_cases hA : ((alookup w.help_state.users uid).getD {}).last_action = none ∧
        pyStartsWith text "/" = false
    · rw [if_pos hA]
      exact ⟨rfl, rfl, rfl, rfl⟩
    · rw [if_neg hA, if_neg hflow]
      rw [adminCommands_nonadmin _ _ _ _ _ hu]
      exact ⟨rfl, rfl, rfl, rfl⟩
  · intro data
    simp only [handle_quick_cancel]
    split
    · rfl
    · split
      · rfl
      · rfl
  · intro data a haa hlen hparse
    have hparse2 : pyInt (String.mk ((splitEvery '_' data.data).getLast?.getD [])) = some a := by
      rw [← List.getLastD_eq_getLast?]
      exact hparse
    simp [handle_quick_cancel, hlen, hparse2, haa]

/-- C1 amended witness: non-admin 2 against `cw1` — an admin-panel
press, an admin command text, and the quick-cancel press that clears
admin 1's session. -/
theorem C1_amended_authorization_witness :
    configSessionsPreserved cw1 (handle_buttons [1] cw1 2 "adminpanel_set_vip" 0).1 ∧
    configSessionsPreserved cw1 (text_handler [1] cw1 2 "Eve" "/set_vip_link https://evil" 0 (fun _ => true)).1 ∧
    (handle_quick_cancel [1] cw1 2 "admin_quick_cancel_1").1.help_state = cw1.help_state ∧
    (handle_quick_cancel [1] cw1 2 "admin_quick_cancel_1").1.admin_sessions = apop cw1.admin_sessions 1 := by
  have t := C1_amended_authorization [1] cw1 2 (by decide)
  exact ⟨t.1 "adminpanel_set_vip" 0,
         t.2.1 "Eve" "/set_vip_link https://evil" 0 (fun _ => true) (by decide),
         t.2.2.1 "admin_quick_cancel_1",
         t.2.2.2 "admin_quick_cancel_1" 1 (by decide) (by decide) (by decide)⟩

/-- C3 amended: the durability-before-notify ordering holds only
partially.  For every ticket submission — tech text, payment media and
tech media — the registry insertion and counter bump ARE saved before
the admin fan-out, but the user's flow-state reset is absent from that
first save (the saved record still carries the `awaiting_*` state) and
is saved only by a second save after the fan-out, with the user-facing
confirmation last.  For every admin resolution that notifies the user
— decline, ignore (of a ticket with a truthy user id), and approve
with a configured link — the ordering is reversed: every notification
to the ticket's user precedes the single save that persists the
ticket's removal. -/
theorem C3_amended_ordering (adminIds : List Int) (w : World) (a uid : Int) (pid : String)
    (p : PendingItem) (fn text : String) (now : Nat) (deliver : Int → Bool)
    (ha : a ∈ adminIds) (hp : alookup w.help_state.pending pid = some p)
    (hu0 : p.user_id ≠ 0) (hu : uid ∉ adminIds)
    (hflow : ((alookup w.help_state.users uid).getD {}).last_action = some "awaiting_tech") :
    ((handle_admin_payment_action adminIds w a pid "decline").2 =
      [.sendMessage p.user_id "Your payment submission was reviewed by admin and declined. If you believe this is a mistake, reply here or contact support." [],
       .saveState (handle_admin_payment_action adminIds w a pid "decline").1.help_state,
       .editMessage "Declined and user notified."] ∧
     alookup (handle_admin_payment_action adminIds w a pid "decline").1.help_state.pending pid = none) ∧
    ((handle_admin_tech_action adminIds w a pid "ignore" now).2 =
      [.sendMessage p.user_id "Admin marked your issue as invalid/ignored. If you disagree, reply here." [],
       .saveState (handle_admin_tech_action adminIds w a pid "ignore" now).1.help_state,
       .editMessage "Ignored and user notified."] ∧
     alookup (handle_admin_tech_action adminIds w a pid "ignore" now).1.help_state.pending pid = none) ∧
    (∀ act, (act = "vip" ∧ w.help_state.vip_link ≠ "") ∨
            (act = "dark" ∧ w.help_state.dark_link ≠ "") ∨
            (act = "both" ∧ (w.help_state.vip_link ≠ "" ∨ w.help_state.dark_link ≠ "")) →
      ∃ sends, sends ≠ [] ∧
        (∀ e ∈ sends, ∃ m, e = OutEvent.sendMessage p.user_id m []) ∧
        (handle_admin_payment_action adminIds w a pid act).2 =
          sends ++ [.saveState (handle_admin_payment_action adminIds w a pid act).1.help_state,
                    .editMessage "Approved and links sent to user."] ∧
        alookup (handle_admin_payment_action adminIds w a pid act).1.help_state.pending pid = none) ∧
    (∃ s1 s2 fan,
      (text_handler adminIds w uid fn text now deliver).2 =
        OutEvent.saveState s1 :: (fan ++ [OutEvent.saveState s2,
          OutEvent.replyText "Thanks — your technical issue has been forwarded to admin. We\x27ll notify you when it\x27s resolved."]) ∧
      (∀ e ∈ fan, ∃ c m b, e = OutEvent.sendMessage c m b) ∧
      alookup s1.pending (toString now) =
        some { ptype := "tech", user_id := uid, text := some text } ∧
      s1.counters.tech_submitted = w.help_state.counters.tech_submitted + 1 ∧
      ((alookup s1.users uid).getD {}).last_action = some "awaiting_tech" ∧
      alookup s2.users uid =
        some { ((alookup w.help_state.users uid).getD {}) with last_action := none } ∧
      (text_handler adminIds w uid fn text now deliver).1.help_state = s2) ∧
    (∀ (uidP : Int) (fnm : String) (copt : Option String) (hph hdoc : Bool),
      ((alookup w.help_state.users uidP).getD {}).last_action = some "awaiting_payment" →
      ∃ s1 s2 fan,
        (photo_or_doc_handler adminIds w uidP fnm copt hph hdoc now deliver).2 =
          OutEvent.saveState s1 :: (fan ++ [OutEvent.saveState s2,
            OutEvent.replyText "Thanks — your payment evidence has been sent to admin for review. We\x27ll notify you when it\x27s processed."]) ∧
        (∀ e ∈ fan, ∃ c m b, e = OutEvent.sendMessage c m b) ∧
        alookup s1.pending (toString now) =
          some { ptype := "payment", user_id := uidP,
                 service := ((alookup w.help_state.users uidP).getD {}).last_service,
                 caption := some (copt.getD "") } ∧
        s1.counters.payment_submitted = w.help_state.counters.payment_submitted + 1 ∧
        s1.users = w.help_state.users ∧
        alookup s2.users uidP =
          some { ((alookup w.help_state.users uidP).getD {}) with last_action := none } ∧
        (photo_or_doc_handler adminIds w uidP fnm copt hph hdoc now deliver).1.help_state = s2) ∧
    (∀ (uidT : Int) (fnm : String) (copt : Option String) (hph hdoc : Bool),
      ((alookup w.help_state.users uidT).getD {}).last_action = some "awaiting_tech" →
      ∃ s1 s2 fan,
        (photo_or_doc_handler adminIds w uidT fnm copt hph hdoc now deliver).2 =
          OutEvent.saveState s1 :: (fan ++ [OutEvent.saveState s2,
            OutEvent.replyText "Thanks — your technical issue (media) has been forwarded to admin. We\x27ll notify you when it\x27s resolved."]) ∧
        (∀ e ∈ fan, ∃ c m b, e = OutEvent.sendMessage c m b) ∧
        alookup s1.pending (toString now) =
          some { ptype := "tech", user_id := uidT,
                 caption := some (copt.getD ""), has_media := true } ∧
        s1.counters.tech_submitted = w.help_state.counters.tech_submitted + 1 ∧
        s1.users = w.help_state.users ∧
        alookup s2.users uidT =
          some { ((alookup w.help_state.users uidT).getD {}) with last_action := none } ∧
        (photo_or_doc_handler adminIds w uidT fnm copt hph hdoc now deliver).1.help_state = s2) := by
  refine ⟨⟨?_, ?_⟩, ⟨?_, ?_⟩, ?_, ?_, ?_, ?_⟩
  · simp [handle_admin_payment_action, ha, hp]
  · simp [handle_admin_payment_action, ha, hp, alookup_apop_self]
  · simp [handle_admin_tech_action, ha, hp, hu0]
  · simp [handle_admin_tech_action, ha, hp, alookup_apop_self]
  · intro act hact
    rcases hact with ⟨he, hv⟩ | ⟨he, hd⟩ | ⟨he, hvd⟩
    · subst he
      refine ⟨[OutEvent.sendMessage p.user_id ("Admin approved. Here\x27s your link: " ++ w.help_state.vip_link) []],
          by simp, ?_, ?_, ?_⟩
      · intro e he'
        simp at he'
        exact ⟨_, he'⟩
      · simp [handle_admin_payment_action, ha, hp, hv,
          show ("vip" : String) ≠ "decline" by decide,
          show ("vip" : String) ≠ "dark" by decide,
          show ("vip" : String) ≠ "both" by decide]
      · simp [handle_admin_payment_action, ha, hp, hv,
          show ("vip" : String) ≠ "decline" by decide,
          show ("vip" : String) ≠ "dark" by decide,
          show ("vip" : String) ≠ "both" by decide, alookup_apop_self]
    · subst he
      refine ⟨[OutEvent.sendMessage p.user_id ("Admin approved. Here\x27s your link: " ++ w.help_state.dark_link) []],
          by simp, ?_, ?_, ?_⟩
      · intro e he'
        simp at he'
        exact ⟨_, he'⟩
      · simp [handle_admin_payment_action, ha, hp, hd,
          show ("dark" : String) ≠ "decline" by decide,
          show ("dark" : String) ≠ "vip" by decide,
          show ("dark" : String) ≠ "both" by decide]
      · simp [handle_admin_payment_action, ha, hp, hd,
          show ("dark" : String) ≠ "decline" by decide,
          show ("dark" : String) ≠ "vip" by decide,
          show ("dark" : String) ≠ "both" by decide, alookup_apop_self]
    · subst he
      by_cases hv : w.help_state.vip_link = ""
      · have hd : w.help_state.dark_link ≠ "" := by
          rcases hvd with h | h
          · exact absurd hv h
          · exact h
        refine ⟨[OutEvent.sendMessage p.user_id ("Admin approved. Here\x27s your link: " ++ w.help_state.dark_link) []],
            by simp, ?_, ?_, ?_⟩
        · intro e he'
          simp at he'
          exact ⟨_, he'⟩
        · simp [handle_admin_payment_action, ha, hp, hv, hd,
            show ("both" : String) ≠ "decline" by decide,
            show ("both" : String) ≠ "vip" by decide,
            show ("both" : String) ≠ "dark" by decide]
        · simp [handle_admin_payment_action, ha, hp, hv, hd,
            show ("both" : String) ≠ "decline" by decide,
            show ("both" : String) ≠ "vip" by decide,
            show ("both" : String) ≠ "dark" by decide, alookup_apop_self]
      · by_cases hd : w.help_state.dark_link = ""
        · refine ⟨[OutEvent.sendMessage p.user_id ("Admin approved. Here\x27s your link: " ++ w.help_state.vip_link) []],
              by simp, ?_, ?_, ?_⟩
          · intro e he'
            simp at he'
            exact ⟨_, he'⟩
          · simp [handle_admin_payment_action, ha, hp, hv, hd,
              show ("both" : String) ≠ "decline" by decide,
              show ("both" : String) ≠ "vip" by decide,
              show ("both" : String) ≠ "dark" by decide]
          · simp [handle_admin_payment_action, ha, hp, hv, hd,
              show ("both" : String) ≠ "decline" by decide,
              show ("both" : String) ≠ "vip" by decide,
              show ("both" : String) ≠ "dark" by decide, alookup_apop_self]
        · refine ⟨[OutEvent.sendMessage p.user_id ("Admin approved. Here\x27s your link: " ++ w.help_state.vip_link) [],
                   OutEvent.sendMessage p.user_id ("Admin approved. Here\x27s your link: " ++ w.help_state.dark_link) []],
              by simp, ?_, ?_, ?_⟩
          · intro e he'
            simp at he'
            rcases he' with h | h
            · exact ⟨_, h⟩
            · exact ⟨_, h⟩
          · simp [handle_admin_payment_action, ha, hp, hv, hd,
              show ("both" : String) ≠ "decline" by decide,
              show ("both" : String) ≠ "vip" by decide,
              show ("both" : String) ≠ "dark" by decide]
          · simp [handle_admin_payment_action, ha, hp, hv, hd,
              show ("both" : String) ≠ "decline" by decide,
              show ("both" : String) ≠ "vip" by decide,
              show ("both" : String) ≠ "dark" by decide, alookup_apop_self]
  · have hc : ¬ (pyLower (pyStrip text) = "/cancel" ∧ uid ∈ adminIds) := fun h => hu h.2
    have hmain : text_handler adminIds w uid fn text now deliver =
        techTextSubmit adminIds
          { w with help_state := { w.help_state with users := asetdefault w.help_state.users uid {} } }
          uid fn text now deliver ((alookup w.help_state.users uid).getD {}) := by
      simp only [text_handler]
      rw [if_neg hc]
      rw [show (if uid ∈ adminIds then alookup w.admin_sessions uid else none) = none from if_neg hu]
      show textUserFlow adminIds w uid fn text now deliver = _
      simp only [textUserFlow]
      rw [alookup_asetdefault_self]
      simp only [Option.getD_some]
      simp [hflow]
    rw [hmain]
    simp only [techTextSubmit]
    refine ⟨_, _, _, rfl, fan_all_send _ _ _ _, ?_, rfl, ?_, ?_, rfl⟩
    · exact alookup_ainsert_self _ _ _
    · rw [alookup_asetdefault_self]
      simpa using hflow
    · exact alookup_ainsert_self _ _ _
  · intro uidP fnm copt hph hdoc hflowP
    have hguard : ¬ (((alookup w.help_state.users uidP).getD {}).last_action ≠ some "awaiting_payment" ∧
        ((alookup w.help_state.users uidP).getD {}).last_action ≠ some "awaiting_tech") := by
      rw [hflowP]
      simp
    simp only [photo_or_doc_handler]
    rw [if_neg hguard, if_pos hflowP]
    refine ⟨_, _, _, rfl, fan_all_send _ _ _ _, ?_, rfl, rfl, ?_, rfl⟩
    · exact alookup_ainsert_self _ _ _
    · exact alookup_ainsert_self _ _ _
  · intro uidT fnm copt hph hdoc hflowT
    have hguard : ¬ (((alookup w.help_state.users uidT).getD {}).last_action ≠ some "awaiting_payment" ∧
        ((alookup w.help_state.users uidT).getD {}).last_action ≠ some "awaiting_tech") := by
      rw [hflowT]
      simp
    have hguardP : ¬ (((alookup w.help_state.users uidT).getD {}).last_action = some "awaiting_payment") := by
      rw [hflowT]
      simp
    simp only [photo_or_doc_handler]
    rw [if_neg hguard, if_neg hguardP]
    refine ⟨_, _, _, rfl, fan_all_send _ _ _ _, ?_, rfl, rfl, ?_, rfl⟩
    · exact alookup_ainsert_self _ _ _
    · exact alookup_ainsert_self _ _ _

/-- C3 amended witness: against `cw3` — decline, ignore and approve-VIP
of ticket `500` (user 5), a tech text submission by user 7, a payment
media submission by user 8 and a tech media submission by user 7. -/
theorem C3_amended_ordering_witness :
    ((handle_admin_payment_action [1] cw3 1 "500" "decline").2 =
      [.sendMessage 5 "Your payment submission was reviewed by admin and declined. If you believe this is a mistake, reply here or contact support." [],
       .saveState (handle_admin_payment_action [1] cw3 1 "500" "decline").1.help_state,
       .editMessage "Declined and user notified."] ∧
     alookup (handle_admin_payment_action [1] cw3 1 "500" "decline").1.help_state.pending "500" = none) ∧
    ((handle_admin_tech_action [1] cw3 1 "500" "ignore" 42).2 =
      [.sendMessage 5 "Admin marked your issue as invalid/ignored. If you disagree, reply here." [],
       .saveState (handle_admin_tech_action [1] cw3 1 "500" "ignore" 42).1.help_state,
       .editMessage "Ignored and user notified."] ∧
     alookup (handle_admin_tech_action [1] cw3 1 "500" "ignore" 42).1.help_state.pending "500" = none) ∧
    (∃ sends, sends ≠ [] ∧
      (∀ e ∈ sends, ∃ m, e = OutEvent.sendMessage 5 m []) ∧
      (handle_admin_payment_action [1] cw3 1 "500" "vip").2 =
        sends ++ [.saveState (handle_admin_payment_action [1] cw3 1 "500" "vip").1.help_state,
                  .editMessage "Approved and links sent to user."] ∧
      alookup (handle_admin_payment_action [1] cw3 1 "500" "vip").1.help_state.pending "500" = none) ∧
    (∃ s1 s2 fan,
      (text_handler [1] cw3 7 "Uma" "nothing works" 42 (fun _ => true)).2 =
        OutEvent.saveState s1 :: (fan ++ [OutEvent.saveState s2,
          OutEvent.replyText "Thanks — your technical issue has been forwarded to admin. We\x27ll notify you when it\x27s resolved."]) ∧
      (∀ e ∈ fan, ∃ c m b, e = OutEvent.sendMessage c m b) ∧
      alookup s1.pending (toString 42) =
        some { ptype := "tech", user_id := 7, text := some "nothing works" } ∧
      s1.counters.tech_submitted = cw3.help_state.counters.tech_submitted + 1 ∧
      ((alookup s1.users 7).getD {}).last_action = some "awaiting_tech" ∧
      alookup s2.users 7 =
        some { ((alookup cw3.help_state.users 7).getD {}) with last_action := none } ∧
      (text_handler [1] cw3 7 "Uma" "nothing works" 42 (fun _ => true)).1.help_state = s2) ∧
    (∃ s1 s2 fan,
      (photo_or_doc_handler [1] cw3 8 "Pam" (some "utr9") true false 42 (fun _ => true)).2 =
        OutEvent.saveState s1 :: (fan ++ [OutEvent.saveState s2,
          OutEvent.replyText "Thanks — your payment evidence has been sent to admin for review. We\x27ll notify you when it\x27s processed."]) ∧
      (∀ e ∈ fan, ∃ c m b, e = OutEvent.sendMessage c m b) ∧
      alookup s1.pending (toString 42) =
        some { ptype := "payment", user_id := 8,
               service := ((alookup cw3.help_state.users 8).getD {}).last_service,
               caption := some ((some "utr9").getD "") } ∧
      s1.counters.payment_submitted = cw3.help_state.counters.payment_submitted + 1 ∧
      s1.users = cw3.help_state.users ∧
      alookup s2.users 8 =
        some { ((alookup cw3.help_state.users 8).getD {}) with last_action := none } ∧
      (photo_or_doc_handler [1] cw3 8 "Pam" (some "utr9") true false 42 (fun _ => true)).1.help_state = s2) ∧
    (∃ s1 s2 fan,
      (photo_or_doc_handler [1] cw3 7 "Tom" (some "shot") false true 42 (fun _ => true)).2 =
        OutEvent.saveState s1 :: (fan ++ [OutEvent.saveState s2,
          OutEvent.replyText "Thanks — your technical issue (media) has been forwarded to admin. We\x27ll notify you when it\x27s resolved."]) ∧
      (∀ e ∈ fan, ∃ c m b, e = OutEvent.sendMessage c m b) ∧
      alookup s1.pending (toString 42) =
        some { ptype := "tech", user_id := 7,
               caption := some ((some "shot").getD ""), has_media := true } ∧
      s1.counters.tech_submitted = cw3.help_state.counters.tech_submitted + 1 ∧
      s1.users = cw3.help_state.users ∧
      alookup s2.users 7 =
        some { ((alookup cw3.help_state.users 7).getD {}) with last_action := none } ∧
      (photo_or_doc_handler [1] cw3 7 "Tom" (some "shot") false true 42 (fun _ => true)).1.help_state = s2) := by
  have t := C3_amended_ordering [1] cw3 1 7 "500"
    { ptype := "payment", user_id := 5, service := some "vip", caption := some "utr" }
    "Uma" "nothing works" 42 (fun _ => true)
    (by decide) (by decide) (by decide) (by decide) (by decide)
  exact ⟨t.1, t.2.1, t.2.2.1 "vip" (Or.inl ⟨rfl, by decide⟩), t.2.2.2.1,
         t.2.2.2.2.1 8 "Pam" (some "utr9") true false (by decide),
         t.2.2.2.2.2 7 "Tom" (some "shot") false true (by decide)⟩
